import Mathlib

deriving instance DecidableEq for Except

/-!
Shallow embedding of `darts/ad/scorers/scorers.py` (anomaly-scorer base
classes) for verification of the spec's claims.

Series values are modelled as rationals; a `TimeSeries` is a start time
together with a nested list of values indexed time → component → sample,
mirroring darts' `(time, component, sample)` value array together with a
contiguous integer time index.
-/

namespace DartsAD

abbrev Val := ℚ

structure TimeSeries where
  startTime : Int
  values : List (List (List Val))
  deriving DecidableEq, Repr

namespace TimeSeries

/-- Number of timestamps (`len(series)`). -/
def length (s : TimeSeries) : Nat := s.values.length

/-- Number of components (`series.width`); darts keeps this uniform across rows. -/
def width (s : TimeSeries) : Nat := (s.values.headD []).length

/-- Number of samples per (time, component) cell (`series.n_samples`). -/
def n_samples (s : TimeSeries) : Nat := ((s.values.headD []).headD []).length

/-- `series.is_deterministic`: exactly one sample. -/
def is_deterministic (s : TimeSeries) : Bool := s.n_samples == 1

/-- `series.is_stochastic`: more than one sample. -/
def is_stochastic (s : TimeSeries) : Bool := decide (1 < s.n_samples)

/-- Value at (time, component, sample), defaulting to 0 out of range. -/
def valueAt (s : TimeSeries) (t c k : Nat) : Val :=
  ((s.values.getD t []).getD c []).getD k 0

/-- One past the last time index. -/
def endTime (s : TimeSeries) : Int := s.startTime + s.values.length

/-- Restriction of the series to the time range `[lo, hi)`. -/
def sliceTo (s : TimeSeries) (lo hi : Int) : TimeSeries :=
  ⟨lo, (s.values.drop (lo - s.startTime).toNat).take (hi - lo).toNat⟩

/-- Elementwise map over all values (darts `series.map`). -/
def mapValues (f : Val → Val) (s : TimeSeries) : TimeSeries :=
  ⟨s.startTime, s.values.map (fun row => row.map (fun cell => cell.map f))⟩

/-- Elementwise combination of two time-aligned series. -/
def zipValuesWith (f : Val → Val → Val) (s1 s2 : TimeSeries) : TimeSeries :=
  ⟨s1.startTime, List.zipWith (List.zipWith (List.zipWith f)) s1.values s2.values⟩

/-- darts `series_1 - series_2` on time-aligned series. -/
def sub (s1 s2 : TimeSeries) : TimeSeries := zipValuesWith (fun a b => a - b) s1 s2

/-- Elementwise negation. -/
def neg (s : TimeSeries) : TimeSeries := s.mapValues (fun q => -q)

/-- The value array has uniform shape `(·, w, ns)`. -/
def Rectangular (s : TimeSeries) (w ns : Nat) : Prop :=
  ∀ row ∈ s.values, row.length = w ∧ ∀ cell ∈ row, cell.length = ns

instance (s : TimeSeries) (w ns : Nat) : Decidable (s.Rectangular w ns) := by
  unfold Rectangular
  infer_instance

end TimeSeries

/-- Modelled from the spec: `darts.ad.utils._intersect` (not under `src/`) returns
both series restricted to their common time range. -/
def _intersect (s1 s2 : TimeSeries) : TimeSeries × TimeSeries :=
  let lo := max s1.startTime s2.startTime
  let hi := min s1.endTime s2.endTime
  (s1.sliceTo lo hi, s2.sliceTo lo hi)

/-- Errors raised by the scorer module (`raise_if_not` / `ValueError` sites);
the spec's taxonomy in §7 groups `notSingleSeries` and `notFitted` as
precondition errors. -/
inductive ScorerError where
  | notSingleSeries
  | notFitted
  | typeError
  | widthMismatch
  | windowTooLarge
  | emptyIntersection
  | lengthMismatch
  | notStochastic
  deriving DecidableEq, Repr

def ScorerError.isPrecondition : ScorerError → Bool
  | .notSingleSeries => true
  | .notFitted => true
  | _ => false

/-- The `diff_fn` configuration value (validated to one of two strings). -/
inductive DiffFn where
  | abs_diff
  | diff
  deriving DecidableEq, Repr

/-- Constructor-time configuration of `AnomalyScorer` (immutable afterwards). -/
structure ScorerConfig where
  univariate_scorer : Bool
  fittable : Bool
  single_series_support : Bool
  probabilistic_support : Bool
  window_agg : Bool
  window : Nat
  diff_fn : DiffFn
  deriving DecidableEq, Repr

/-- Mutable scorer state: `_fit_called` is `None` for non-fittable scorers and
`False`/`True` for fittable ones; `width_trained_on` is unset before `fit`. -/
structure ScorerState where
  fit_called : Option Bool
  width_trained_on : Option Nat
  deriving DecidableEq, Repr

/-- `AnomalyScorer.check_if_fit_called`: `raise_if_not(self._fit_called, ...)`
passes exactly when the attribute is truthy, i.e. `True`. -/
def check_if_fit_called (st : ScorerState) : Except ScorerError Unit :=
  if st.fit_called = some true then .ok () else .error .notFitted

/-- Error-propagating map used in place of Python loops that score/check each
series of a sequence in order, stopping at the first raised error. -/
def mapExcept (f : α → Except ScorerError β) : List α → Except ScorerError (List β)
  | [] => .ok []
  | x :: xs =>
    match f x with
    | .error e => .error e
    | .ok y =>
      match mapExcept f xs with
      | .error e => .error e
      | .ok ys => .ok (y :: ys)

/-- Pointwise mean across the time axis of a block of value rows
(`np.ndarray.mean(axis=0)` on an array of shape `(k, width, samples)`;
numpy arrays are rectangular, so the first row serves as the shape template). -/
def meanRows (rows : List (List (List Val))) : List (List Val) :=
  match rows with
  | [] => []
  | r0 :: _ =>
    (List.range r0.length).map (fun c =>
      (List.range ((r0.getD c []).length)).map (fun k =>
        (rows.map (fun r => ((r.getD c []).getD k 0))).sum / (rows.length : Val)))

/-- `AnomalyScorer._fun_window_agg` on one score series: for every index, the
mean of the value rows in the forward slice `[idx, idx + window)` (numpy
slicing clips the slice at the end of the array); the time index and length
of the score series are reused unchanged. -/
def _fun_window_agg (score : TimeSeries) (window : Nat) : TimeSeries :=
  ⟨score.startTime,
   (List.range score.length).map (fun idx_point =>
     meanRows ((score.values.drop idx_point).take window))⟩

/-- Modelled from the spec: `TimeSeries.window_transform` (series container,
not under `src/`) with `{window, function: mean, mode: rolling,
min_periods: window}` and `treat_na="dropna"` — a trailing rolling mean where
output position `i` covers original indices `[i, i + window)` and carries the
original timestamp `i + window - 1`; positions without a full window are
dropped, so a length-`N` series becomes length `N - window + 1`. -/
def window_transform_rolling_mean (s : TimeSeries) (window : Nat) : TimeSeries :=
  ⟨s.startTime + ((window - 1 : Nat) : Int),
   (List.range (s.length + 1 - window)).map (fun i =>
     meanRows ((s.values.drop i).take window))⟩

/-- Insertion of a value into a sorted list (ascending). -/
def insertSorted (q : Val) : List Val → List Val
  | [] => [q]
  | x :: xs => if q ≤ x then q :: x :: xs else x :: insertSorted q xs

/-- Ascending insertion sort. -/
def sortVals (l : List Val) : List Val := l.foldr insertSorted []

/-- Median of a sample list with linear interpolation between the two middle
order statistics for an even count (pandas' default `quantile(0.5)`). -/
def medianOfList (l : List Val) : Val :=
  let sorted := sortVals l
  let n := l.length
  if n = 0 then 0
  else if n % 2 = 1 then sorted.getD (n / 2) 0
  else (sorted.getD (n / 2 - 1) 0 + sorted.getD (n / 2) 0) / 2

/-- Modelled from the spec: `series.quantile_timeseries(quantile=0.5)` (series
container, not under `src/`) — the median-sample series, one sample per cell. -/
def TimeSeries.quantile_timeseries_median (s : TimeSeries) : TimeSeries :=
  ⟨s.startTime, s.values.map (fun row => row.map (fun cell => [medianOfList cell]))⟩

/-- `AnomalyScorer._extract_deterministic`: a deterministic series is returned
unchanged; a stochastic one is replaced by its 0.5-quantile series after a
`logger.warning`. The second component records whether the warning fired. -/
def _extract_deterministic (s : TimeSeries) : TimeSeries × Bool :=
  if s.is_deterministic then (s, false)
  else (s.quantile_timeseries_median, true)

/-- `AnomalyScorer._assert_stochastic`: fails unless the series has more than
one sample. -/
def _assert_stochastic (s : TimeSeries) : Except ScorerError Unit :=
  if s.is_stochastic then .ok () else .error .notStochastic

/-- `AnomalyScorer._check_probabilistic_series`: when the scorer declares
probabilistic support every `pred_series` element must be stochastic;
otherwise each element is reduced to its deterministic representative. -/
def _check_probabilistic_series (cfg : ScorerConfig) (pred_series : List TimeSeries) :
    Except ScorerError (List TimeSeries) :=
  mapExcept
    (fun s =>
      if cfg.probabilistic_support then
        match _assert_stochastic s with
        | .error e => .error e
        | .ok () => .ok s
      else .ok (_extract_deterministic s).1)
    pred_series

/-- Modelled from the spec: `darts.ad.utils._sanity_check_two_series` (not
under `src/`) — the two series of a pair must have equal component width and
a non-empty time intersection. -/
def _sanity_check_two_series (s1 s2 : TimeSeries) : Except ScorerError Unit :=
  if s1.width ≠ s2.width then .error .widthMismatch
  else if ((_intersect s1 s2).1).length = 0 then .error .emptyIntersection
  else .ok ()

/-- `AnomalyScorer._diff_series`: intersect the two series on their common
time range, then combine them with the configured `diff_fn`. -/
def _diff_series (fn : DiffFn) (series_1 series_2 : TimeSeries) : TimeSeries :=
  let p := _intersect series_1 series_2
  match fn with
  | .abs_diff => (p.1.sub p.2).mapValues (fun x => |x|)
  | .diff => p.1.sub p.2

/-- One flattened tabular row: the values of the window block starting at a
given position, laid out component-major as in numpy's C-order reshape of the
`sliding_window_view` block (`window * n_components` entries for
single-sample data). -/
def flattenBlock (w : Nat) (block : List (List (List Val))) : List Val :=
  ((List.range w).map (fun c => block.map (fun row => (row.getD c []).headD 0))).flatten

/-- `WindowedAnomalyScorer._tabularize_series` on one series with
`component_wise=False`: `sliding_window_view(arr, window, axis=0)` reshaped to
`len(series) - window + 1` rows of `window * width` values. -/
def _tabularize_series_single (window : Nat) (s : TimeSeries) : List (List Val) :=
  (List.range (s.length + 1 - window)).map
    (fun i => flattenBlock s.width ((s.values.drop i).take window))

/-- `WindowedAnomalyScorer._score_core` in the `component_wise=False` branch
(the `component_wise=True` branch differs only in fanning rows out per
component; both reassemble scores over `series.time_index[window - 1:]`).
The pluggable window model (`_model_score_method` wrapping `model.infer`) is
the abstract per-row function `modelScore`. -/
def WindowedAnomalyScorer._score_core (cfg : ScorerConfig) (modelScore : List Val → Val)
    (width_trained_on : Option Nat) (series : TimeSeries) : Except ScorerError TimeSeries :=
  if width_trained_on ≠ some series.width then .error .widthMismatch
  else
    let scores := (_tabularize_series_single cfg.window series).map modelScore
    let anomaly : TimeSeries :=
      ⟨series.startTime + ((cfg.window - 1 : Nat) : Int), scores.map (fun q => [[q]])⟩
    if 1 < cfg.window ∧ cfg.window_agg = true then .ok (_fun_window_agg anomaly cfg.window)
    else .ok anomaly

/-- `AnomalyScorer.score` as instantiated by `WindowedAnomalyScorer`: the
single-series-support decorator, the fit gate, per-series window validation,
determinism extraction, and one `_score_core` call per series. -/
def WindowedAnomalyScorer.score (cfg : ScorerConfig) (modelScore : List Val → Val)
    (st : ScorerState) (list_series : List TimeSeries) : Except ScorerError (List TimeSeries) :=
  if cfg.single_series_support ≠ true then .error .notSingleSeries
  else
    match check_if_fit_called st with
    | .error e => .error e
    | .ok () =>
      if list_series.any (fun s => decide (s.length < cfg.window)) then .error .windowTooLarge
      else
        mapExcept
          (fun s =>
            WindowedAnomalyScorer._score_core cfg modelScore st.width_trained_on
              (_extract_deterministic s).1)
          list_series

/-- The result of a call to `AnomalyScorer.fit`: the state after the call
(mutations survive a raised error), the series sequence handed to the
subclass `_fit_core` hook (None when validation failed first), and the
raised error if any. -/
structure FitOutcome where
  state : ScorerState
  fitCoreInput : Option (List TimeSeries)
  error : Option ScorerError
  deriving DecidableEq, Repr

/-- The validation loop of `AnomalyScorer.fit`, threading the
`width_trained_on` mutation: index 0 records the width, later indices are
checked against it, then the window length is validated; the
`_extract_deterministic` result is bound to the loop variable only and
therefore discarded. -/
def AnomalyScorer.fitLoop (cfg : ScorerConfig) :
    Option Nat → Nat → List TimeSeries → Option Nat × Option ScorerError
  | wto, _, [] => (wto, none)
  | wto, idx, s :: rest =>
    let wto' := if idx = 0 then some s.width else wto
    if idx ≠ 0 ∧ wto' ≠ some s.width then (wto', some .widthMismatch)
    else if s.length < cfg.window then (wto', some .windowTooLarge)
    else
      let _s := _extract_deterministic s
      AnomalyScorer.fitLoop cfg wto' (idx + 1) rest

/-- `AnomalyScorer.fit`: the single-series-support decorator, the validation
loop, then delegation of `list_series` to `_fit_core` and setting of the
fit-called flag. -/
def AnomalyScorer.fit (cfg : ScorerConfig) (st : ScorerState) (list_series : List TimeSeries) :
    FitOutcome :=
  if cfg.single_series_support ≠ true then ⟨st, none, some .notSingleSeries⟩
  else
    match AnomalyScorer.fitLoop cfg st.width_trained_on 0 list_series with
    | (wto, some e) => ⟨⟨st.fit_called, wto⟩, none, some e⟩
    | (wto, none) => ⟨⟨some true, wto⟩, some list_series, none⟩

/-- A public-API series argument as Python sees it: either a bare
`TimeSeries` or a list of `TimeSeries` (the documented signature of
`score_from_prediction` permits both shapes for both arguments). -/
inductive PySeriesArg where
  | ts (s : TimeSeries)
  | listOf (l : List TimeSeries)
  deriving DecidableEq

/-- `isinstance(arg, list)`. -/
def PySeriesArg.isList : PySeriesArg → Bool
  | .ts _ => false
  | .listOf _ => true

/-- `series2seq`: wrap a bare series into a singleton sequence. -/
def PySeriesArg.toSeq : PySeriesArg → List TimeSeries
  | .ts s => [s]
  | .listOf l => l

/-- The inner `_check_ts_or_list_ts` closure of
`AnomalyScorer.score_from_prediction`: the argument is wrapped into a
singleton list before the element-wise `_assert_timeseries` exactly when
`actual_series` — not the argument itself — is not a list.  When the
argument is iterated directly, every yielded element is a `TimeSeries` and
the assertion passes; a list wrapped as `[input]` leaves the list itself as
the element, which is not a `TimeSeries` and fails. -/
def _check_ts_or_list_ts (actual_is_list : Bool) (input : PySeriesArg) :
    Except ScorerError Unit :=
  if actual_is_list then .ok ()
  else
    match input with
    | .ts _ => .ok ()
    | .listOf _ => .error .typeError

/-- The prefix of `AnomalyScorer.score_from_prediction` that runs before any
scoring work: the fit gate for fittable scorers, then the two
`_check_ts_or_list_ts` calls — both keyed on the container type of
`actual_series`. -/
def score_from_prediction_input_check (cfg : ScorerConfig) (st : ScorerState)
    (actual_series pred_series : PySeriesArg) : Except ScorerError Unit :=
  match (if cfg.fittable then check_if_fit_called st else .ok ()) with
  | .error e => .error e
  | .ok () =>
    match _check_ts_or_list_ts actual_series.isList actual_series with
    | .error e => .error e
    | .ok () => _check_ts_or_list_ts actual_series.isList pred_series

/-- The per-pair body of `score_from_prediction` for a scorer with
single-series support: sanity checks, intersection, window validation on
both halves, then `_diff_series` and `_score_core`. -/
def scorePair (cfg : ScorerConfig) (modelScore : List Val → Val) (st : ScorerState)
    (s1 s2 : TimeSeries) : Except ScorerError TimeSeries :=
  match _sanity_check_two_series s1 s2 with
  | .error e => .error e
  | .ok () =>
    let p := _intersect s1 s2
    if p.1.length < cfg.window then .error .windowTooLarge
    else if p.2.length < cfg.window then .error .windowTooLarge
    else
      WindowedAnomalyScorer._score_core cfg modelScore st.width_trained_on
        (_diff_series cfg.diff_fn p.1 p.2)

/-- `AnomalyScorer.score_from_prediction` as instantiated by
`WindowedAnomalyScorer` (whose `_score_core_from_prediction` also reduces the
pair via `_diff_series` and calls `_score_core`, so the two branches on
`single_series_support` coincide): input checks, determinism extraction of
`actual_series`, probabilistic reconciliation of `pred_series`,
sequence-length check, then the per-pair scoring. -/
def WindowedAnomalyScorer.score_from_prediction (cfg : ScorerConfig)
    (modelScore : List Val → Val) (st : ScorerState)
    (actual_series pred_series : PySeriesArg) : Except ScorerError (List TimeSeries) :=
  match score_from_prediction_input_check cfg st actual_series pred_series with
  | .error e => .error e
  | .ok () =>
    let list_actual := actual_series.toSeq.map (fun s => (_extract_deterministic s).1)
    match _check_probabilistic_series cfg pred_series.toSeq with
    | .error e => .error e
    | .ok list_pred =>
      if list_actual.length ≠ list_pred.length then .error .lengthMismatch
      else
        mapExcept (fun pr => scorePair cfg modelScore st pr.1 pr.2)
          (list_actual.zip list_pred)

/-- The argument tuple that `eval_metric` / `eval_metric_from_prediction`
hand to the external `eval_metric_from_scores` utility. -/
structure MetricCall where
  actual_anomalies : List TimeSeries
  anomaly_score : List TimeSeries
  window : Nat
  deriving DecidableEq, Repr

/-- `AnomalyScorer._check_univariate_scorer`: a univariate-output scorer
requires every ground-truth series to have exactly one component. -/
def _check_univariate_scorer (cfg : ScorerConfig) (actual_anomalies : List TimeSeries) :
    Except ScorerError Unit :=
  if cfg.univariate_scorer = true ∧ actual_anomalies.all (fun s => s.width == 1) = false then
    .error .widthMismatch
  else .ok ()

/-- `AnomalyScorer.eval_metric`: decorator, univariate check, `score`, then
the delegated call with the effective window `1` when `window_agg` else
the configured window. -/
def AnomalyScorer.eval_metric (cfg : ScorerConfig) (modelScore : List Val → Val)
    (st : ScorerState) (actual_anomalies series : List TimeSeries) :
    Except ScorerError MetricCall :=
  if cfg.single_series_support ≠ true then .error .notSingleSeries
  else
    match _check_univariate_scorer cfg actual_anomalies with
    | .error e => .error e
    | .ok () =>
      match WindowedAnomalyScorer.score cfg modelScore st series with
      | .error e => .error e
      | .ok anomaly_score =>
        .ok ⟨actual_anomalies, anomaly_score,
             if cfg.window_agg = true then 1 else cfg.window⟩

/-- `AnomalyScorer.eval_metric_from_prediction`: univariate check,
`score_from_prediction`, then the delegated call always with the raw
configured window. -/
def AnomalyScorer.eval_metric_from_prediction (cfg : ScorerConfig)
    (modelScore : List Val → Val) (st : ScorerState) (actual_anomalies : List TimeSeries)
    (actual_series pred_series : PySeriesArg) : Except ScorerError MetricCall :=
  match _check_univariate_scorer cfg actual_anomalies with
  | .error e => .error e
  | .ok () =>
    match WindowedAnomalyScorer.score_from_prediction cfg modelScore st
        actual_series pred_series with
    | .error e => .error e
    | .ok anomaly_score => .ok ⟨actual_anomalies, anomaly_score, cfg.window⟩

/-- The raw per-timestamp NLL score series built by
`NLLScorer._score_core_from_prediction` before window adjustment: over
`pred_series.time_index`, per component, the abstract per-timestamp
`_score_core_nllikelihood` of the actual value against that timestamp's
sample set. -/
def NLLrawScores (nll : Val → List Val → Val) (actual pred : TimeSeries) : TimeSeries :=
  ⟨pred.startTime,
   (List.range pred.length).map (fun t =>
     (List.range pred.width).map (fun c =>
       [nll (actual.valueAt t c 0) ((pred.values.getD t []).getD c [])]))⟩

/-- `NLLScorer._score_core_from_prediction`: extract determinism from
`actual_series`, assert `pred_series` stochastic, build the per-timestamp
scores, then `_window_adjustment_series` — the identity for `window == 1`,
otherwise the trailing rolling mean of `window_transform` (never gated on
`window_agg`). -/
def NLLScorer._score_core_from_prediction (cfg : ScorerConfig)
    (nll : Val → List Val → Val) (actual_series pred_series : TimeSeries) :
    Except ScorerError TimeSeries :=
  let a := (_extract_deterministic actual_series).1
  match _assert_stochastic pred_series with
  | .error e => .error e
  | .ok () =>
    let anomaly_scores := NLLrawScores nll a pred_series
    if cfg.window = 1 then .ok anomaly_scores
    else .ok (window_transform_rolling_mean anomaly_scores cfg.window)

/-- Whether a call returned normally (no exception raised). -/
def isOkE {γ : Type} : Except ScorerError γ → Bool
  | .ok _ => true
  | .error _ => false

/-! Concrete fixtures used by counterexamples and witnesses. -/

/-- A deterministic univariate series of length 3 over times 0, 1, 2. -/
def ts3 : TimeSeries := ⟨0, [[[1]], [[2]], [[3]]]⟩

/-- A stochastic univariate series (2 samples per timestamp) of length 2. -/
def sSto : TimeSeries := ⟨0, [[[1, 3]], [[2, 4]]]⟩

/-- A univariate series over times 0, 1. -/
def tsA : TimeSeries := ⟨0, [[[1]], [[5]]]⟩

/-- A univariate series over times 1, 2; it intersects `tsA` exactly at time 1. -/
def tsB : TimeSeries := ⟨1, [[[2]], [[7]]]⟩

/-- A fittable single-series scorer configuration with `window=2`,
`window_agg=True`. -/
def cfgC1 : ScorerConfig := ⟨false, true, true, false, true, 2, .abs_diff⟩

/-- A fittable single-series scorer configuration with `window=1`,
`window_agg=False`. -/
def cfgF : ScorerConfig := ⟨false, true, true, false, false, 1, .abs_diff⟩

/-- A fittable single-series scorer configuration with `window=5`. -/
def cfgW5 : ScorerConfig := ⟨false, true, true, false, false, 5, .abs_diff⟩

/-- Scorer state before any fit. -/
def st0 : ScorerState := ⟨some false, none⟩

/-- Scorer state after a successful fit on univariate data. -/
def st1 : ScorerState := ⟨some true, some 1⟩

/-- A trivial window model scoring every tabular row as 0. -/
def m0 : List Val → Val := fun _ => 0

/-- A concrete per-timestamp likelihood function standing in for the abstract
`_score_core_nllikelihood`. -/
def nllFix : Val → List Val → Val := fun x l => x + l.sum

/-! Theorems settling the claims. -/

/-- C1 counterexample: for a fitted scorer with `window=2` and
`window_agg=True`, scoring a series of length 3 returns a series of length 2
(`len - window + 1`), not of length 3 as the claim states for the
`window_agg=True` case — window aggregation keeps the shortened index. -/
theorem C1_counterexample_window_agg_length :
    Except.map (fun scores => scores.map TimeSeries.length)
        (WindowedAnomalyScorer.score cfgC1 m0 st1 [ts3]) = .ok [2] ∧
    ts3.length = 3 ∧ cfgC1.window_agg = true ∧ cfgC1.window = 2 :=
  ⟨by decide, by decide, by decide, by decide⟩

/-- C2: divergence of the code from the claim — `fit` on a stochastic series
succeeds but hands the original stochastic sequence to `_fit_core`, because
the result of `_extract_deterministic` is assigned to the loop variable only
and discarded; the claim (and `score`, which rebuilds its list) says the
median series should reach the subclass fit routine. -/
theorem C2_fit_core_receives_stochastic_series :
    (AnomalyScorer.fit cfgF st0 [sSto]).error = none ∧
    (AnomalyScorer.fit cfgF st0 [sSto]).fitCoreInput = some [sSto] ∧
    sSto.is_deterministic = false ∧ sSto.n_samples = 2 ∧
    ((_extract_deterministic sSto).1).n_samples = 1 :=
  ⟨by decide, by decide, by decide, by decide, by decide⟩

/-- C3 counterexample: a `fit` call that fails window validation (window 5,
series length 3) still overwrites `width_trained_on` (from unset to `some 1`),
so a failed fit does leave partial fit state behind. -/
theorem C3_counterexample_failed_fit_mutates_width :
    (AnomalyScorer.fit cfgW5 st0 [ts3]).error = some .windowTooLarge ∧
    st0.width_trained_on = none ∧
    (AnomalyScorer.fit cfgW5 st0 [ts3]).state.width_trained_on = some 1 :=
  ⟨by decide, by decide, by decide⟩

/-- C3 amended: on any failed `fit` call the fit-called flag is unchanged
(in particular it stays `false` before the first successful fit), though
`width_trained_on` may have been overwritten. -/
theorem C3_amended_failed_fit_keeps_fit_called (cfg : ScorerConfig) (st : ScorerState)
    (l : List TimeSeries) (h : (AnomalyScorer.fit cfg st l).error.isSome) :
    (AnomalyScorer.fit cfg st l).state.fit_called = st.fit_called := by
  by_cases hs : cfg.single_series_support ≠ true
  · simp [AnomalyScorer.fit, hs]
  · rcases hE : AnomalyScorer.fitLoop cfg st.width_trained_on 0 l with ⟨wto, oe⟩
    cases oe with
    | none => simp [AnomalyScorer.fit, hs, hE] at h
    | some e => simp [AnomalyScorer.fit, hs, hE]

/-- Witness for C3 amended at the C3 counterexample input. -/
theorem C3_amended_failed_fit_keeps_fit_called_witness :
    (AnomalyScorer.fit cfgW5 st0 [ts3]).error.isSome = true ∧
    (AnomalyScorer.fit cfgW5 st0 [ts3]).state.fit_called = st0.fit_called :=
  ⟨by decide, C3_amended_failed_fit_keeps_fit_called cfgW5 st0 [ts3] (by decide)⟩

/-- Helper: `getD` on a mapped range. -/
theorem getD_range_map {α : Type} (f : Nat → α) (n i : Nat) (h : i < n) (d : α) :
    ((List.range n).map f).getD i d = f i := by
  rw [List.getD_eq_getElem _ d (by simpa using h)]
  simp

/-- Helper: `getD` through `map` below the length bound. -/
theorem getD_map_of_lt {α β : Type} (f : α → β) (l : List α) (t : Nat)
    (h : t < l.length) (d : β) (d' : α) :
    (l.map f).getD t d = f (l.getD t d') := by
  rw [List.getD_eq_getElem _ d (by simpa using h), List.getD_eq_getElem _ d' h,
    List.getElem_map]

/-- Helper: an in-range `getD` is a member of the list. -/
theorem getD_mem_of_lt {α : Type} (l : List α) (i : Nat) (h : i < l.length) (d : α) :
    l.getD i d ∈ l := by
  rw [List.getD_eq_getElem l d h]
  exact List.getElem_mem h

/-- Helper: a contiguous slice of a list written as a mapped index range. -/
theorem drop_take_as_range_map {α : Type} (l : List α) (t w : Nat) (d : α) :
    (l.drop t).take w = (List.range (min w (l.length - t))).map (fun j => l.getD (t + j) d) := by
  apply List.ext_getElem
  · simp
  · intro i h1 h2
    have hlt : t + i < l.length := by
      simp at h1
      omega
    simp only [List.getElem_take, List.getElem_drop, List.getElem_map, List.getElem_range]
    rw [List.getD_eq_getElem l d hlt]

/-- Helper: `meanRows` on a non-empty block, unfolded. -/
theorem meanRows_cons (r0 : List (List Val)) (rest : List (List (List Val))) :
    meanRows (r0 :: rest) =
      (List.range r0.length).map (fun c =>
        (List.range ((r0.getD c []).length)).map (fun k =>
          ((r0 :: rest).map (fun r => ((r.getD c []).getD k 0))).sum /
            (((r0 :: rest).length : Nat) : Val))) := rfl

/-- Helper: the pointwise value of `meanRows` applied to the window slice of a
rectangular series starting at `t` is the clipped-window mean of the series
values. -/
theorem meanRows_slice (s : TimeSeries) (W w ns t c k : Nat)
    (hW : 0 < W) (hrect : s.Rectangular w ns)
    (ht : t < s.length) (hc : c < w) (hk : k < ns) :
    ((meanRows ((s.values.drop t).take W)).getD c []).getD k 0 =
      ((List.range (min W (s.length - t))).map (fun j => s.valueAt (t + j) c k)).sum /
        ((min W (s.length - t) : Nat) : Val) := by
  have hlen : s.values.length = s.length := rfl
  obtain ⟨K, hK⟩ : ∃ K, min W (s.length - t) = K + 1 := by
    refine ⟨min W (s.length - t) - 1, ?_⟩
    have : 0 < s.length - t := by
      unfold TimeSeries.length at ht ⊢
      omega
    omega
  have hslice : (s.values.drop t).take W =
      (List.range (K + 1)).map (fun j => s.values.getD (t + j) []) := by
    rw [drop_take_as_range_map s.values t W [], hlen, hK]
  have hrow : s.values.getD t [] ∈ s.values := getD_mem_of_lt s.values t ht []
  obtain ⟨hrl, hcells⟩ := hrect _ hrow
  have hcell : (s.values.getD t []).getD c [] ∈ s.values.getD t [] :=
    getD_mem_of_lt _ c (by omega) []
  have hcl : ((s.values.getD t []).getD c []).length = ns := hcells _ hcell
  rw [hslice, List.range_succ_eq_map, List.map_cons, meanRows_cons]
  have h0 : t + 0 = t := rfl
  rw [h0]
  rw [getD_range_map _ _ _ (by omega) []]
  rw [getD_range_map _ _ _ (by rw [hcl]; omega) 0]
  have hback : (s.values.getD t [] :: ((List.range K).map (fun i => i + 1)).map
        (fun j => s.values.getD (t + j) [])) =
      (List.range (K + 1)).map (fun j => s.values.getD (t + j) []) := by
    rw [List.range_succ_eq_map, List.map_cons, h0]
  rw [hback, List.map_map, List.length_map, List.length_range, hK]
  rfl

/-- Helper: `_extract_deterministic` preserves the series length. -/
theorem extract_deterministic_length (s : TimeSeries) :
    ((_extract_deterministic s).1).length = s.length := by
  unfold _extract_deterministic
  split
  · rfl
  · simp [TimeSeries.quantile_timeseries_median, TimeSeries.length]

/-- Helper: `_extract_deterministic` preserves the series width. -/
theorem extract_deterministic_width (s : TimeSeries) :
    ((_extract_deterministic s).1).width = s.width := by
  unfold _extract_deterministic
  split
  · rfl
  · unfold TimeSeries.quantile_timeseries_median TimeSeries.width
    cases s.values with
    | nil => rfl
    | cons r rest => simp

/-- C5: the window-aggregation post-processing maps a window-wise score series
of length `L` with window `W` to a point-wise series of the same length `L`
over the same time index, whose value at index `i` is the mean of the score
values at indices `[i, i + W)` clipped at the end of the series. -/
theorem C5_window_agg_pointwise_mean (s : TimeSeries) (W w ns : Nat)
    (hW : 0 < W) (hrect : s.Rectangular w ns) :
    (_fun_window_agg s W).startTime = s.startTime ∧
    (_fun_window_agg s W).length = s.length ∧
    ∀ t, t < s.length → ∀ c, c < w → ∀ k, k < ns →
      (_fun_window_agg s W).valueAt t c k =
        ((List.range (min W (s.length - t))).map (fun j => s.valueAt (t + j) c k)).sum /
          ((min W (s.length - t) : Nat) : Val) := by
  refine ⟨rfl, by simp [_fun_window_agg, TimeSeries.length], ?_⟩
  intro t ht c hc k hk
  show ((((List.range s.length).map
      (fun idx_point => meanRows ((s.values.drop idx_point).take W))).getD t []).getD c []).getD k 0 = _
  rw [getD_range_map _ _ _ ht []]
  exact meanRows_slice s W w ns t c k hW hrect ht hc hk

/-- Witness for C5 at a concrete series with window 2: the aggregated value at
index 0 is the mean of the scores at indices 0 and 1. -/
theorem C5_window_agg_pointwise_mean_witness :
    0 < 2 ∧ ts3.Rectangular 1 1 ∧
    (_fun_window_agg ts3 2).valueAt 0 0 0 =
      ((List.range (min 2 (ts3.length - 0))).map (fun j => ts3.valueAt (0 + j) 0 0)).sum /
        ((min 2 (ts3.length - 0) : Nat) : Val) :=
  ⟨by decide, by decide,
   (C5_window_agg_pointwise_mean ts3 2 1 1 (by decide) (by decide)).2.2
     0 (by decide) 0 (by decide) 0 (by decide)⟩

/-- Helper: the raw NLL score series ranges over the prediction's time index. -/
theorem NLLrawScores_length (nll : Val → List Val → Val) (a p : TimeSeries) :
    (NLLrawScores nll a p).length = p.length := by
  simp [NLLrawScores, TimeSeries.length]

/-- Helper: the raw NLL score series is rectangular with the prediction's
width and a single sample per cell. -/
theorem NLLrawScores_rect (nll : Val → List Val → Val) (a p : TimeSeries) :
    (NLLrawScores nll a p).Rectangular p.width 1 := by
  intro row hrow
  simp only [NLLrawScores] at hrow
  rw [List.mem_map] at hrow
  obtain ⟨t, _, rfl⟩ := hrow
  constructor
  · simp
  · intro cell hcell
    rw [List.mem_map] at hcell
    obtain ⟨c, _, rfl⟩ := hcell
    rfl

/-- C6: in `NLLScorer._score_core_from_prediction`, the per-timestamp scores
pass through unchanged when `window == 1`; when `window > 1` they are smoothed
by a trailing rolling mean of length `window` requiring a full window (a
length-`N` raw score series becomes length `N - window + 1`, with the time
index advanced by `window - 1` at the front); and the result never depends on
the `window_agg` flag. -/
theorem C6_nll_window_smoothing (cfg : ScorerConfig) (b : Bool)
    (nll : Val → List Val → Val) (actual_series pred_series : TimeSeries)
    (hsto : 1 < pred_series.n_samples) (hw0 : 0 < cfg.window)
    (hwlen : cfg.window ≤ pred_series.length) :
    NLLScorer._score_core_from_prediction { cfg with window_agg := b } nll
        actual_series pred_series =
      NLLScorer._score_core_from_prediction cfg nll actual_series pred_series ∧
    (cfg.window = 1 →
      NLLScorer._score_core_from_prediction cfg nll actual_series pred_series =
        .ok (NLLrawScores nll (_extract_deterministic actual_series).1 pred_series)) ∧
    (1 < cfg.window →
      ∃ r, NLLScorer._score_core_from_prediction cfg nll actual_series pred_series = .ok r ∧
        r.length = pred_series.length - cfg.window + 1 ∧
        r.startTime = pred_series.startTime + ((cfg.window - 1 : Nat) : Int) ∧
        ∀ i, i < r.length → ∀ c, c < pred_series.width →
          r.valueAt i c 0 =
            ((List.range cfg.window).map (fun j =>
              (NLLrawScores nll (_extract_deterministic actual_series).1 pred_series).valueAt
                (i + j) c 0)).sum / ((cfg.window : Nat) : Val)) := by
  have hstoB : _assert_stochastic pred_series = .ok () := by
    unfold _assert_stochastic TimeSeries.is_stochastic
    simp [hsto]
  refine ⟨rfl, ?_, ?_⟩
  · intro h1
    unfold NLLScorer._score_core_from_prediction
    rw [hstoB]
    simp [h1]
  · intro hgt
    set raw := NLLrawScores nll (_extract_deterministic actual_series).1 pred_series with hraw
    have hrawlen : raw.length = pred_series.length := NLLrawScores_length _ _ _
    have hrl : (window_transform_rolling_mean raw cfg.window).length =
        raw.length + 1 - cfg.window := by
      simp [window_transform_rolling_mean, TimeSeries.length]
    refine ⟨window_transform_rolling_mean raw cfg.window, ?_, ?_, rfl, ?_⟩
    · unfold NLLScorer._score_core_from_prediction
      rw [hstoB]
      have : cfg.window ≠ 1 := by omega
      simp [this, hraw]
    · omega
    · intro i hi c hc
      rw [hrl] at hi
      have hipred : i < raw.length := by omega
      show ((((List.range (raw.length + 1 - cfg.window)).map
          (fun j => meanRows ((raw.values.drop j).take cfg.window))).getD i []).getD c []).getD 0 0 = _
      rw [getD_range_map _ _ _ (by omega) []]
      have hmin : min cfg.window (raw.length - i) = cfg.window := by
        apply Nat.min_eq_left
        omega
      have := meanRows_slice raw cfg.window pred_series.width 1 i c 0 hw0
        (NLLrawScores_rect nll _ pred_series) hipred hc (by omega)
      rw [hmin] at this
      exact this

/-- Witness for C6 at `window=2` on a concrete deterministic/stochastic pair. -/
theorem C6_nll_window_smoothing_witness :
    1 < sSto.n_samples ∧ 0 < cfgC1.window ∧ cfgC1.window ≤ sSto.length ∧
    NLLScorer._score_core_from_prediction { cfgC1 with window_agg := false } nllFix ts3 sSto =
      NLLScorer._score_core_from_prediction cfgC1 nllFix ts3 sSto ∧
    (1 < cfgC1.window →
      ∃ r, NLLScorer._score_core_from_prediction cfgC1 nllFix ts3 sSto = .ok r ∧
        r.length = sSto.length - cfgC1.window + 1 ∧
        r.startTime = sSto.startTime + ((cfgC1.window - 1 : Nat) : Int) ∧
        ∀ i, i < r.length → ∀ c, c < sSto.width →
          r.valueAt i c 0 =
            ((List.range cfgC1.window).map (fun j =>
              (NLLrawScores nllFix (_extract_deterministic ts3).1 sSto).valueAt
                (i + j) c 0)).sum / ((cfgC1.window : Nat) : Val)) :=
  ⟨by decide, by decide, by decide,
   (C6_nll_window_smoothing cfgC1 false nllFix ts3 sSto (by decide) (by decide) (by decide)).1,
   (C6_nll_window_smoothing cfgC1 false nllFix ts3 sSto (by decide) (by decide) (by decide)).2.2⟩

/-- Helper: mapping an involution-like flip over a `zipWith` swaps the
argument lists, given the pointwise law. -/
theorem map_zipWith_flip {α : Type} (f : α → α → α) (n : α → α)
    (h : ∀ a b, n (f a b) = f b a) :
    ∀ (x y : List α), (List.zipWith f x y).map n = List.zipWith f y x
  | [], y => by cases y <;> simp
  | a :: x, [] => by simp
  | a :: x, b :: y => by
    simp [map_zipWith_flip f n h x y, h]

/-- Helper: a map that is insensitive to the argument order of `f` commutes
with swapping the `zipWith` argument lists. -/
theorem map_zipWith_comm {α β : Type} (f : α → α → α) (n : α → β)
    (h : ∀ a b, n (f a b) = n (f b a)) :
    ∀ (x y : List α), (List.zipWith f x y).map n = (List.zipWith f y x).map n
  | [], y => by cases y <;> simp
  | a :: x, [] => by simp
  | a :: x, b :: y => by
    simp [map_zipWith_comm f n h x y, h]

/-- Helper: `_intersect` is order-covariant — swapping the arguments swaps
the returned pair (the common time range is symmetric). -/
theorem intersect_swap (s1 s2 : TimeSeries) :
    _intersect s2 s1 = ((_intersect s1 s2).2, (_intersect s1 s2).1) := by
  simp [_intersect, max_comm, min_comm]

/-- Helper: on series with equal start times, subtraction in one order is the
negation of subtraction in the other order. -/
theorem sub_neg_of_aligned (a b : TimeSeries) (hst : a.startTime = b.startTime) :
    a.sub b = (b.sub a).neg := by
  unfold TimeSeries.sub TimeSeries.zipValuesWith TimeSeries.neg TimeSeries.mapValues
  simp only [TimeSeries.mk.injEq]
  refine ⟨hst, ?_⟩
  refine (map_zipWith_flip _ _ ?_ b.values a.values).symm
  intro u v
  refine map_zipWith_flip _ _ ?_ u v
  intro u v
  refine map_zipWith_flip _ _ ?_ u v
  intro u v
  ring

/-- Helper: on series with equal start times, the absolute difference is
symmetric in its arguments. -/
theorem absdiff_comm_of_aligned (a b : TimeSeries) (hst : a.startTime = b.startTime) :
    (a.sub b).mapValues (fun x => |x|) = (b.sub a).mapValues (fun x => |x|) := by
  unfold TimeSeries.sub TimeSeries.zipValuesWith TimeSeries.mapValues
  simp only [TimeSeries.mk.injEq]
  refine ⟨hst, ?_⟩
  refine map_zipWith_comm _ _ ?_ a.values b.values
  intro u v
  refine map_zipWith_comm _ _ ?_ u v
  intro u v
  refine map_zipWith_comm _ _ ?_ u v
  intro u v
  rw [abs_sub_comm]

/-- C7: for series pairs with a non-empty time intersection and equal width,
`_diff_series` is antisymmetric under `diff_fn="diff"`
(`diff(a,b) = -diff(b,a)`) and symmetric under `diff_fn="abs_diff"`
(`diff(a,b) = diff(b,a)`). -/
theorem C7_diff_series_symmetry (s1 s2 : TimeSeries)
    (hinter : 0 < ((_intersect s1 s2).1).length) (hw : s1.width = s2.width) :
    _diff_series .diff s1 s2 = (_diff_series .diff s2 s1).neg ∧
    _diff_series .abs_diff s1 s2 = _diff_series .abs_diff s2 s1 := by
  have hst : ((_intersect s1 s2).1).startTime = ((_intersect s1 s2).2).startTime := rfl
  constructor
  · show (_intersect s1 s2).1.sub (_intersect s1 s2).2 = _
    unfold _diff_series
    rw [intersect_swap s1 s2]
    exact sub_neg_of_aligned _ _ hst
  · show ((_intersect s1 s2).1.sub (_intersect s1 s2).2).mapValues (fun x => |x|) = _
    unfold _diff_series
    rw [intersect_swap s1 s2]
    exact absdiff_comm_of_aligned _ _ hst

/-- Witness for C7 at two concrete overlapping univariate series. -/
theorem C7_diff_series_symmetry_witness :
    0 < ((_intersect tsA tsB).1).length ∧ tsA.width = tsB.width ∧
    _diff_series .diff tsA tsB = (_diff_series .diff tsB tsA).neg ∧
    _diff_series .abs_diff tsA tsB = _diff_series .abs_diff tsB tsA :=
  ⟨by decide, by decide,
   (C7_diff_series_symmetry tsA tsB (by decide) (by decide)).1,
   (C7_diff_series_symmetry tsA tsB (by decide) (by decide)).2⟩

/-- Helper: `_score_core` never raises the not-fitted error (only a width
mismatch can fail there). -/
theorem score_core_ne_notFitted (cfg : ScorerConfig) (m : List Val → Val)
    (wt : Option Nat) (s : TimeSeries) :
    WindowedAnomalyScorer._score_core cfg m wt s ≠ .error .notFitted := by
  unfold WindowedAnomalyScorer._score_core
  split
  · intro h
    simp at h
  · split
    · intro h
      simp at h
    · intro h
      simp at h

/-- Helper: if no element produces a given error, neither does the mapped
sequence. -/
theorem mapExcept_ne_error {α β : Type} (f : α → Except ScorerError β) (e : ScorerError)
    (hne : ∀ x, f x ≠ .error e) : ∀ l, mapExcept f l ≠ .error e := by
  intro l
  induction l with
  | nil => simp [mapExcept]
  | cons x xs ih =>
    simp only [mapExcept]
    cases hfx : f x with
    | error e1 =>
      intro h
      simp at h
      exact hne x (by rw [hfx, h])
    | ok y =>
      cases hrest : mapExcept f xs with
      | error e1 =>
        intro h
        simp at h
        exact ih (by rw [hrest, h])
      | ok ys => simp

/-- C8: for a fittable scorer, `score` before any successful fit always fails
with a precondition error; after a successful fit it never fails with the
not-fitted error; and the fit gate is one-way — no operation (in particular
no further `fit` call, successful or failed) resets the fit-called flag. -/
theorem C8_fit_gate (cfg : ScorerConfig) (m : List Val → Val) (st : ScorerState)
    (l : List TimeSeries) (hfittable : cfg.fittable = true) :
    (st.fit_called = some false →
      ∃ e, WindowedAnomalyScorer.score cfg m st l = .error e ∧ e.isPrecondition = true) ∧
    (st.fit_called = some true →
      WindowedAnomalyScorer.score cfg m st l ≠ .error .notFitted) ∧
    (st.fit_called = some true →
      (AnomalyScorer.fit cfg st l).state.fit_called = some true) := by
  refine ⟨?_, ?_, ?_⟩
  · intro hF
    by_cases hs : cfg.single_series_support = true
    · refine ⟨.notFitted, ?_, rfl⟩
      unfold WindowedAnomalyScorer.score
      simp [hs, check_if_fit_called, hF]
    · refine ⟨.notSingleSeries, ?_, rfl⟩
      unfold WindowedAnomalyScorer.score
      simp [hs]
  · intro hT
    unfold WindowedAnomalyScorer.score
    by_cases hs : cfg.single_series_support = true
    · rw [show check_if_fit_called st = Except.ok () from by simp [check_if_fit_called, hT]]
      cases hany : l.any (fun s => decide (s.length < cfg.window)) with
      | true => simp [hs, hany]
      | false =>
        simp only [hs, ne_eq, not_true_eq_false, if_false, hany, Bool.false_eq_true]
        exact mapExcept_ne_error
          (fun s => WindowedAnomalyScorer._score_core cfg m st.width_trained_on
            (_extract_deterministic s).1)
          .notFitted
          (fun x => score_core_ne_notFitted cfg m st.width_trained_on
            (_extract_deterministic x).1) l
    · simp [hs]
  · intro hT
    unfold AnomalyScorer.fit
    by_cases hs : cfg.single_series_support = true
    · simp only [hs, ne_eq, not_true_eq_false, if_false]
      rcases hE : AnomalyScorer.fitLoop cfg st.width_trained_on 0 l with ⟨wto, oe⟩
      cases oe with
      | none => simp
      | some e => simp [hT]
    · simp [hs, hT]

/-- Witness for C8: the unfit state rejects `score` with a precondition
error, the fitted state never sees the not-fitted error, and `fit` keeps the
flag set. -/
theorem C8_fit_gate_witness :
    cfgC1.fittable = true ∧
    (∃ e, WindowedAnomalyScorer.score cfgC1 m0 st0 [ts3] = .error e ∧
      e.isPrecondition = true) ∧
    WindowedAnomalyScorer.score cfgC1 m0 st1 [ts3] ≠ .error .notFitted ∧
    (AnomalyScorer.fit cfgC1 st1 [ts3]).state.fit_called = some true :=
  ⟨by decide,
   (C8_fit_gate cfgC1 m0 st0 [ts3] (by decide)).1 (by decide),
   (C8_fit_gate cfgC1 m0 st1 [ts3] (by decide)).2.1 (by decide),
   (C8_fit_gate cfgC1 m0 st1 [ts3] (by decide)).2.2 (by decide)⟩

/-- C9: `_extract_deterministic` returns a deterministic series (one sample)
unchanged with no warning; a stochastic series (more than one sample) is
replaced by its 0.5-quantile (median-sample) series and a warning is emitted;
the replacement's every cell is the median of the original cell's samples. -/
theorem C9_extract_deterministic_cases (s : TimeSeries) :
    (s.n_samples = 1 → _extract_deterministic s = (s, false)) ∧
    (1 < s.n_samples →
      _extract_deterministic s = (s.quantile_timeseries_median, true) ∧
      ∀ t, t < s.length → ∀ c, c < (s.values.getD t []).length →
        (((_extract_deterministic s).1.values.getD t []).getD c []) =
          [medianOfList ((s.values.getD t []).getD c [])]) := by
  constructor
  · intro h1
    unfold _extract_deterministic
    simp [TimeSeries.is_deterministic, h1]
  · intro hgt
    have hdet : s.is_deterministic = false := by
      unfold TimeSeries.is_deterministic
      simp
      omega
    have heq : _extract_deterministic s = (s.quantile_timeseries_median, true) := by
      unfold _extract_deterministic
      simp [hdet]
    refine ⟨heq, ?_⟩
    intro t ht c hc
    rw [heq]
    show ((s.values.map (fun row => row.map (fun cell => [medianOfList cell]))).getD t []).getD c [] = _
    rw [getD_map_of_lt _ _ _ ht [] []]
    rw [getD_map_of_lt _ _ _ hc [] []]

/-- Witness for C9 at a concrete deterministic and a concrete stochastic
series. -/
theorem C9_extract_deterministic_cases_witness :
    (ts3.n_samples = 1 ∧ _extract_deterministic ts3 = (ts3, false)) ∧
    (1 < sSto.n_samples ∧
      _extract_deterministic sSto = (sSto.quantile_timeseries_median, true)) :=
  ⟨⟨by decide, (C9_extract_deterministic_cases ts3).1 (by decide)⟩,
   ⟨by decide, ((C9_extract_deterministic_cases sSto).2 (by decide)).1⟩⟩

/-- C10: in `score_from_prediction`, whether `pred_series` is validated
element-wise or as a single object is keyed on the container type of
`actual_series`; with a bare `actual_series` and a list `pred_series` the
type validation fails before any scoring, while the same `pred_series` next
to a list `actual_series` validates fine. -/
theorem C10_pred_validation_keyed_on_actual (cfg : ScorerConfig) (m : List Val → Val)
    (st : ScorerState) (a : TimeSeries) (l : List TimeSeries)
    (hfit : cfg.fittable = true → st.fit_called = some true) :
    score_from_prediction_input_check cfg st (.ts a) (.listOf l) = .error .typeError ∧
    score_from_prediction_input_check cfg st (.listOf [a]) (.listOf l) = .ok () ∧
    WindowedAnomalyScorer.score_from_prediction cfg m st (.ts a) (.listOf l) =
      .error .typeError := by
  have hgate : (if cfg.fittable then check_if_fit_called st else .ok ()) = .ok () := by
    by_cases hf : cfg.fittable
    · simp [hf, check_if_fit_called, hfit hf]
    · simp [hf]
  have h1 : score_from_prediction_input_check cfg st (.ts a) (.listOf l) =
      .error .typeError := by
    unfold score_from_prediction_input_check
    rw [hgate]
    rfl
  refine ⟨h1, ?_, ?_⟩
  · unfold score_from_prediction_input_check
    rw [hgate]
    rfl
  · unfold WindowedAnomalyScorer.score_from_prediction
    rw [h1]

/-- Witness for C10 at a concrete fitted scorer and concrete series. -/
theorem C10_pred_validation_keyed_on_actual_witness :
    score_from_prediction_input_check cfgC1 st1 (.ts ts3) (.listOf [ts3]) =
      .error .typeError ∧
    score_from_prediction_input_check cfgC1 st1 (.listOf [ts3]) (.listOf [ts3]) = .ok () ∧
    WindowedAnomalyScorer.score_from_prediction cfgC1 m0 st1 (.ts ts3) (.listOf [ts3]) =
      .error .typeError :=
  C10_pred_validation_keyed_on_actual cfgC1 m0 st1 ts3 [ts3] (fun _ => by decide)

/-- C4: whenever `eval_metric` reaches the external metric function it passes
the effective window `1` if `window_agg` else the configured `window`, while
`eval_metric_from_prediction` always passes the raw configured `window`. -/
theorem C4_effective_window_passed_to_metric (cfg : ScorerConfig) (m : List Val → Val)
    (st : ScorerState) (anoms series : List TimeSeries) (actual pred : PySeriesArg) :
    (isOkE (AnomalyScorer.eval_metric cfg m st anoms series) = true →
      Except.map MetricCall.window (AnomalyScorer.eval_metric cfg m st anoms series) =
        .ok (if cfg.window_agg = true then 1 else cfg.window)) ∧
    (isOkE (AnomalyScorer.eval_metric_from_prediction cfg m st anoms actual pred) = true →
      Except.map MetricCall.window
          (AnomalyScorer.eval_metric_from_prediction cfg m st anoms actual pred) =
        .ok cfg.window) := by
  constructor
  · intro h
    unfold AnomalyScorer.eval_metric at h ⊢
    by_cases hs : cfg.single_series_support ≠ true
    · rw [if_pos hs] at h
      simp [isOkE] at h
    · rw [if_neg hs] at h ⊢
      cases hu : _check_univariate_scorer cfg anoms with
      | error e =>
        rw [hu] at h
        simp [isOkE] at h
      | ok u =>
        cases u
        cases hsc : WindowedAnomalyScorer.score cfg m st series with
        | error e => simp [isOkE, hu, hsc] at h
        | ok sc => rfl
  · intro h
    unfold AnomalyScorer.eval_metric_from_prediction at h ⊢
    cases hu : _check_univariate_scorer cfg anoms with
    | error e =>
      rw [hu] at h
      simp [isOkE] at h
    | ok u =>
      cases u
      cases hsc : WindowedAnomalyScorer.score_from_prediction cfg m st actual pred with
      | error e => simp [isOkE, hu, hsc] at h
      | ok sc => rfl

/-- Witness for C4 at a fitted scorer with `window=2`, `window_agg=True`:
`eval_metric` passes 1 while `eval_metric_from_prediction` passes 2. -/
theorem C4_effective_window_passed_to_metric_witness :
    isOkE (AnomalyScorer.eval_metric cfgC1 m0 st1 [ts3] [ts3]) = true ∧
    Except.map MetricCall.window (AnomalyScorer.eval_metric cfgC1 m0 st1 [ts3] [ts3]) =
      .ok (if cfgC1.window_agg = true then 1 else cfgC1.window) ∧
    isOkE (AnomalyScorer.eval_metric_from_prediction cfgC1 m0 st1 [ts3]
      (.ts ts3) (.ts ts3)) = true ∧
    Except.map MetricCall.window (AnomalyScorer.eval_metric_from_prediction cfgC1 m0 st1
      [ts3] (.ts ts3) (.ts ts3)) = .ok cfgC1.window :=
  ⟨by decide,
   (C4_effective_window_passed_to_metric cfgC1 m0 st1 [ts3] [ts3] (.ts ts3) (.ts ts3)).1
     (by decide),
   by decide,
   (C4_effective_window_passed_to_metric cfgC1 m0 st1 [ts3] [ts3] (.ts ts3) (.ts ts3)).2
     (by decide)⟩

/-- Helper: `_score_core` succeeds on a width-matching series and returns a
score series of length `len - window + 1` in both `window_agg` branches. -/
theorem score_core_ok_length (cfg : ScorerConfig) (m : List Val → Val)
    (wt : Option Nat) (s : TimeSeries) (hwt : wt = some s.width) :
    ∃ out, WindowedAnomalyScorer._score_core cfg m wt s = .ok out ∧
      out.length = s.length + 1 - cfg.window := by
  unfold WindowedAnomalyScorer._score_core
  subst hwt
  rw [if_neg (by simp)]
  by_cases hagg : 1 < cfg.window ∧ cfg.window_agg = true
  · rw [if_pos hagg]
    refine ⟨_, rfl, ?_⟩
    simp [_fun_window_agg, TimeSeries.length, _tabularize_series_single]
  · rw [if_neg hagg]
    refine ⟨_, rfl, ?_⟩
    simp [TimeSeries.length, _tabularize_series_single]

/-- C1 amended: for every fitted scorer and input series with
`window ∈ [1, len(series)]`, `score` returns a score series of length
`len(series) - window + 1` — whether `window_agg` is false or true (window
aggregation keeps the shortened length; it does not restore `len(series)`). -/
theorem C1_amended_score_length (cfg : ScorerConfig) (m : List Val → Val)
    (st : ScorerState) (s : TimeSeries)
    (hsing : cfg.single_series_support = true)
    (hfit : st.fit_called = some true)
    (hwto : st.width_trained_on = some s.width)
    (hw1 : 0 < cfg.window) (hw2 : cfg.window ≤ s.length) :
    ∃ out, WindowedAnomalyScorer.score cfg m st [s] = .ok [out] ∧
      out.length = s.length - cfg.window + 1 := by
  have hwid : st.width_trained_on = some ((_extract_deterministic s).1).width := by
    rw [hwto, extract_deterministic_width]
  obtain ⟨out, hok, hlen⟩ := score_core_ok_length cfg m st.width_trained_on
    (_extract_deterministic s).1 hwid
  refine ⟨out, ?_, ?_⟩
  · unfold WindowedAnomalyScorer.score
    rw [if_neg (by simp [hsing])]
    rw [show check_if_fit_called st = Except.ok () from by simp [check_if_fit_called, hfit]]
    rw [if_neg (by simp; omega)]
    show mapExcept _ [s] = .ok [out]
    simp [mapExcept, hok]
  · rw [hlen, extract_deterministic_length]
    omega

/-- Witness for C1 amended at the C1 counterexample scorer (`window=2`,
`window_agg=True`) on a length-3 series. -/
theorem C1_amended_score_length_witness :
    cfgC1.single_series_support = true ∧ st1.fit_called = some true ∧
    st1.width_trained_on = some ts3.width ∧ 0 < cfgC1.window ∧ cfgC1.window ≤ ts3.length ∧
    ∃ out, WindowedAnomalyScorer.score cfgC1 m0 st1 [ts3] = .ok [out] ∧
      out.length = ts3.length - cfgC1.window + 1 :=
  ⟨by decide, by decide, by decide, by decide, by decide,
   C1_amended_score_length cfgC1 m0 st1 ts3 (by decide) (by decide) (by decide)
     (by decide) (by decide)⟩

end DartsAD
